import Mathlib

set_option maxHeartbeats 1000000

/-!
Shallow embedding of the navigator repository's curb_localizer node
(src/src/atlas/curb_localizer/src/CurbLocalizerNode.cpp).

Modelling conventions:
- C++ `double` values are modelled as rationals (`ℚ`); every arithmetic
  operation used by the node (add, subtract, compare, abs, multiply) is exact
  on the inputs considered, so no rounding behaviour is lost.
- a C++ `std::shared_ptr<T>` / `std::weak_ptr<T>.lock()` value is modelled as
  `Option T`; dereferencing a null pointer is modelled as the `Crash.nullDeref`
  error, which aborts the remainder of the cycle (in the real program it is
  undefined behaviour that terminates the process before anything later in the
  cycle runs).
- the external map library (libOpenDRIVE queries: nearest lane, road table,
  reference-line match, lane-section lookup, centerline materialization) is an
  out-of-scope collaborator; it is modelled as an environment record of
  functions (`OdrMap`), exactly at the granularity the node calls it.
-/

/-- 3-vector of exact coordinates (models `Eigen::Vector3d` / `pcl::PointXYZ`). -/
structure Vec3 where
  x : ℚ
  y : ℚ
  z : ℚ
deriving DecidableEq

def Vec3.add (a b : Vec3) : Vec3 := ⟨a.x + b.x, a.y + b.y, a.z + b.z⟩

def Vec3.dot (a b : Vec3) : ℚ := a.x * b.x + a.y * b.y + a.z * b.z

/-- 3x3 matrix, stored by rows (models `Eigen::Matrix3d`). -/
structure Mat3 where
  r1 : Vec3
  r2 : Vec3
  r3 : Vec3
deriving DecidableEq

def Mat3.mulVec (m : Mat3) (v : Vec3) : Vec3 :=
  ⟨m.r1.dot v, m.r2.dot v, m.r3.dot v⟩

def Mat3.col1 (m : Mat3) : Vec3 := ⟨m.r1.x, m.r2.x, m.r3.x⟩

def Mat3.col2 (m : Mat3) : Vec3 := ⟨m.r1.y, m.r2.y, m.r3.y⟩

def Mat3.col3 (m : Mat3) : Vec3 := ⟨m.r1.z, m.r2.z, m.r3.z⟩

def Mat3.mul (a b : Mat3) : Mat3 :=
  ⟨⟨a.r1.dot b.col1, a.r1.dot b.col2, a.r1.dot b.col3⟩,
   ⟨a.r2.dot b.col1, a.r2.dot b.col2, a.r2.dot b.col3⟩,
   ⟨a.r3.dot b.col1, a.r3.dot b.col2, a.r3.dot b.col3⟩⟩

/-- Quaternion, field order (w, x, y, z) as in `Eigen::Quaterniond(w, x, y, z)`,
which is how CurbLocalizerNode.cpp lines 135-138 pass the odometry orientation. -/
structure Quat where
  w : ℚ
  x : ℚ
  y : ℚ
  z : ℚ
deriving DecidableEq

/-- `Eigen::Quaterniond::toRotationMatrix` (the conversion `Transform::rotate`
performs on its `RotationBase` argument). -/
def quatToRot (q : Quat) : Mat3 :=
  ⟨⟨1 - 2 * (q.y * q.y + q.z * q.z), 2 * (q.x * q.y - q.w * q.z), 2 * (q.x * q.z + q.w * q.y)⟩,
   ⟨2 * (q.x * q.y + q.w * q.z), 1 - 2 * (q.x * q.x + q.z * q.z), 2 * (q.y * q.z - q.w * q.x)⟩,
   ⟨2 * (q.x * q.z - q.w * q.y), 2 * (q.y * q.z + q.w * q.x), 1 - 2 * (q.x * q.x + q.y * q.y)⟩⟩

/-- `Eigen::Affine3d`: linear part plus translation. The C++ code
default-constructs one, which per Eigen documentation leaves the coefficients
uninitialized; the indeterminate initial contents are therefore passed
explicitly wherever the model uses one. -/
structure Affine3 where
  lin : Mat3
  trans : Vec3
deriving DecidableEq

/-- `Eigen::Transform::rotate(R)`: right-multiplication, `*this = *this * R`. -/
def Affine3.rotate (a : Affine3) (r : Mat3) : Affine3 :=
  ⟨a.lin.mul r, a.trans⟩

/-- `Eigen::Transform::translate(t)`: right-multiplication by a translation,
`*this = *this * Translation(t)`, i.e. the translation column becomes
`trans + lin * t`. -/
def Affine3.translate (a : Affine3) (t : Vec3) : Affine3 :=
  ⟨a.lin, a.trans.add (a.lin.mulVec t)⟩

def Affine3.apply (a : Affine3) (p : Vec3) : Vec3 :=
  (a.lin.mulVec p).add a.trans

/-- The fields of a `nav_msgs::msg::Odometry` the node reads: pose position and
orientation. -/
structure OdomMsg where
  px : ℚ
  py : ℚ
  pz : ℚ
  qw : ℚ
  qx : ℚ
  qy : ℚ
  qz : ℚ
deriving DecidableEq

/-- `transform_points_to_odom` (CurbLocalizerNode.cpp lines 130-145).
`init` is the content of the default-constructed (uninitialized)
`Eigen::Affine3d odom_pose`; the code then calls `rotate` with the odometry
quaternion and `translate` with the odometry position, and maps the resulting
transform over the cloud (`pcl::transformPointCloud`, which preserves point
order and count). -/
def transform_points_to_odom (init : Affine3) (in_cloud : List Vec3) (odom : OdomMsg) :
    List Vec3 :=
  let odom_pose := init.rotate (quatToRot ⟨odom.qw, odom.qx, odom.qy, odom.qz⟩)
  let odom_pose2 := odom_pose.translate ⟨odom.px, odom.py, odom.pz⟩
  in_cloud.map odom_pose2.apply

/-- Modelled from the spec: the Frame Transformer contract of section 4.4,
"applies pose's rotation then translation to every point (rigid transform; no
scale)". Used only as the comparison point for the refinement claim about
`transform_points_to_odom`. -/
def to_map_frame_spec (q : Quat) (t : Vec3) (cloud : List Vec3) : List Vec3 :=
  cloud.map (fun p => ((quatToRot q).mulVec p).add t)

/-- Lane (`odr::Lane`): signed id, type tag, and the owning road recorded as a
weak back-reference. The `road` field holds the result of `road.lock()`:
`some id` when the weak pointer is alive, `none` when locking yields null. -/
structure Lane where
  id : Int
  type : String
  road : Option String
deriving DecidableEq

/-- LaneSection (`odr::LaneSection`): start arc-length `s0`, end arc-length
(`get_end()`), and its lanes (`get_lanes()`). -/
structure LaneSection where
  s0 : ℚ
  s_end : ℚ
  lanes : List Lane
deriving DecidableEq

/-- Road (`odr::Road`): id, total length, reference-line `match(x, y) -> s`,
and `get_lanesection(s)` (a shared_ptr in C++, hence `Option`). -/
structure Road where
  id : String
  length : ℚ
  refMatch : ℚ → ℚ → ℚ
  lanesectionAt : ℚ → Option LaneSection

/-- The external map environment: `get_lane_from_xy`, the `map->roads` table
(`std::map::operator[]` yields a null shared_ptr for a missing key, hence
`Option Road`), and `get_centerline_as_xy(lane, s0, s_end, step, flip)`. -/
structure OdrMap where
  laneAtXY : ℚ → ℚ → Option Lane
  roads : String → Option Road
  centerline : Lane → ℚ → ℚ → ℚ → Bool → List Vec3

/-- A null-pointer dereference: in the C++ this is undefined behaviour that
kills the process mid-cycle; in the model it aborts the cycle with an error. -/
inductive Crash where
  | nullDeref
deriving DecidableEq

/-- The hardcoded path of (road-id, lane-id) pairs from publish_odom
(CurbLocalizerNode.cpp lines 61-64). -/
def path_roads : List (String × String) := [("81", "1"), ("953", "1")]

/-- CurbLocalizerNode.cpp line 81:
`(current_lane <= 0 && (s + 20) > current_road->length) || (current_lane > 0 && (s - 20) < 0.0)`.
`current_lane` is a `std::shared_ptr<odr::Lane>`, so both comparisons are the
C++11 shared_ptr/nullptr_t relational operators: `ptr <= 0` holds exactly when
the pointer is null, and `ptr > 0` exactly when it is non-null. The lane's `id`
field is never consulted. -/
def nextRoadCond (current_lane : Option Lane) (s road_length : ℚ) : Bool :=
  (current_lane.isNone && decide (s + 20 > road_length)) ||
  (current_lane.isSome && decide (s - 20 < 0))

/-- CurbLocalizerNode.cpp lines 89-93: choice of lookup arc-length on the next
road, keyed on the next path entry's lane-id string being exactly "-1", "-2"
or "-3". -/
def sectionChoice (r : Road) (laneId : String) (next_s : ℚ) : Option LaneSection :=
  if laneId = "-1" ∨ laneId = "-2" ∨ laneId = "-3" then
    r.lanesectionAt next_s
  else
    r.lanesectionAt (r.length - next_s)

/-- CurbLocalizerNode.cpp lines 88-93: the loop body run when a path entry
matches: `target_road = map->roads[path_roads[i + 1][0]]` followed by the
lane-section lookup. A missing road gives a null `target_road`, and the
immediate `target_road->get_lanesection(...)` call crashes. -/
def assignTarget (m : OdrMap) (nextEntry : String × String) (next_s : ℚ) :
    Except Crash (Option Road × Option LaneSection) :=
  match m.roads nextEntry.1 with
  | none => .error .nullDeref
  | some r => .ok (some r, sectionChoice r nextEntry.2 next_s)

/-- CurbLocalizerNode.cpp lines 85-96: the indexed loop over `path_roads`.
An entry triggers the assignment when its road id matches AND it is not the
last entry (`i != path_roads.size() - 1`); the element at `i + 1` is then the
head of the remaining list. Later matches overwrite earlier assignments; the
accumulator starts as the pair of null pointers. -/
def resolveLoopGo (m : OdrMap) (road_id : String) (next_s : ℚ) :
    List (String × String) → Option Road × Option LaneSection →
    Except Crash (Option Road × Option LaneSection)
  | [], acc => .ok acc
  | [_], acc => .ok acc
  | e :: nextEntry :: rest, acc =>
    if e.1 = road_id then
      match assignTarget m nextEntry next_s with
      | .error c => .error c
      | .ok acc2 => resolveLoopGo m road_id next_s (nextEntry :: rest) acc2
    else
      resolveLoopGo m road_id next_s (nextEntry :: rest) acc

/-- CurbLocalizerNode.cpp lines 76-101: the lane-section resolver. On the
next-road branch the overflow is `next_s = abs(current_road->length - (s + 20))`
(line 83); otherwise the target is the current road and its section at `s`. -/
def resolveStage (m : OdrMap) (path : List (String × String)) (current_lane : Option Lane)
    (current_road : Road) (s : ℚ) : Except Crash (Option Road × Option LaneSection) :=
  if nextRoadCond current_lane s current_road.length then
    resolveLoopGo m current_road.id |current_road.length - (s + 20)| path (none, none)
  else
    .ok (some current_road, current_road.lanesectionAt s)

/-- CurbLocalizerNode.cpp lines 66-74: nearest lane, owning road via the weak
back-reference, road table lookup, and `ref_line->match`. Each null shared_ptr
on the way is dereferenced immediately by the code (lines 70, 74), so each
`none` crashes. -/
def locateStage (m : OdrMap) (x y : ℚ) : Except Crash (Option Lane × Road × ℚ) :=
  match m.laneAtXY x y with
  | none => .error .nullDeref
  | some lane =>
    match lane.road with
    | none => .error .nullDeref
    | some rid =>
      match m.roads rid with
      | none => .error .nullDeref
      | some road => .ok (some lane, road, road.refMatch x y)

/-- CurbLocalizerNode.cpp lines 107-113: one scan over the section's lanes;
a shoulder lane with id <= 0 overwrites `right_curb`, a shoulder lane with
id > 0 overwrites `left_curb`; both start as null pointers. -/
def findCurbs (lanes : List Lane) : Option Lane × Option Lane :=
  lanes.foldl
    (fun acc lane =>
      if lane.type = "shoulder" ∧ lane.id ≤ 0 then (some lane, acc.2)
      else if lane.type = "shoulder" ∧ lane.id > 0 then (acc.1, some lane)
      else acc)
    (none, none)

/-- CurbLocalizerNode.cpp lines 104-117: the curb-extraction step. A null
`target_lanesection` crashes at `->get_lanes()` (line 107); a missing right or
left curb lane crashes at the unconditional dereferences `*right_curb` /
`*left_curb` passed to `get_centerline_as_xy` (lines 116-117, right first).
The sampling step is 0.25 and the left line is generated with the orientation
flag flipped. -/
def extractStage (m : OdrMap) (target_lanesection : Option LaneSection) :
    Except Crash (List Vec3 × List Vec3) :=
  match target_lanesection with
  | none => .error .nullDeref
  | some sec =>
    match findCurbs sec.lanes with
    | (none, _) => .error .nullDeref
    | (some _, none) => .error .nullDeref
    | (some rc, some lc) =>
      .ok (m.centerline rc sec.s0 sec.s_end (1 / 4) false,
           m.centerline lc sec.s0 sec.s_end (1 / 4) true)

/-- The locate / resolve / extract pipeline of publish_odom (lines 66-117),
up to but not including the publish call. -/
def cycleCore (m : OdrMap) (x y : ℚ) : Except Crash (List Vec3 × List Vec3) :=
  match locateStage m x y with
  | .error c => .error c
  | .ok (current_lane, current_road, s) =>
    match resolveStage m path_roads current_lane current_road s with
    | .error c => .error c
    | .ok (_, target_lanesection) => extractStage m target_lanesection

/-- Node state: the three mutable cells plus the cached position and the
output message pointer (`odom_out`, which no code in the source file ever
assigns, hence `Option`). -/
structure NodeState where
  left_curb_points : List Vec3
  right_curb_points : List Vec3
  odom_in : Option OdomMsg
  current_position_x : ℚ
  current_position_y : ℚ
  odom_out : Option OdomMsg

/-- CurbLocalizerNode.cpp line 120: `odom_out_pub->publish(*odom_out)`;
dereferencing a null `odom_out` crashes. -/
def publishStage (odom_out : Option OdomMsg) : Except Crash OdomMsg :=
  match odom_out with
  | none => .error .nullDeref
  | some msg => .ok msg

/-- publish_odom (lines 59-121): run the core pipeline, then publish. -/
def publishOdomModel (m : OdrMap) (st : NodeState) (x y : ℚ) : Except Crash OdomMsg :=
  match cycleCore m x y with
  | .error c => .error c
  | .ok _ => publishStage st.odom_out

/-- Messages actually emitted on the output topic by one cycle: one on a run
to completion, none when the cycle dies first. -/
def publishedMsgs (r : Except Crash OdomMsg) : List OdomMsg :=
  match r with
  | .ok msg => [msg]
  | .error _ => []

/-- A `sensor_msgs::msg::PointCloud2` reduced to what `convert_to_pcl`
extracts from it. -/
structure CloudMsg where
  points : List Vec3
deriving DecidableEq

/-- `convert_to_pcl` (lines 38-42): wire-format conversion of the message into
an in-memory cloud, overwriting the output argument wholesale. -/
def convert_to_pcl (msg : CloudMsg) : List Vec3 := msg.points

/-- `left_curb_points_callback` (lines 44-46). -/
def left_curb_points_callback (msg : CloudMsg) (st : NodeState) : NodeState :=
  { st with left_curb_points := convert_to_pcl msg }

/-- `right_curb_points_callback` (lines 48-50). -/
def right_curb_points_callback (msg : CloudMsg) (st : NodeState) : NodeState :=
  { st with right_curb_points := convert_to_pcl msg }

/-- `odom_in_callback` (lines 52-57): store the pose, cache its (x, y), and
run publish_odom. Returns the new state and the list of emitted messages. -/
def odom_in_callback (m : OdrMap) (msg : OdomMsg) (st : NodeState) :
    NodeState × List OdomMsg :=
  let st2 := { st with odom_in := some msg,
                       current_position_x := msg.px,
                       current_position_y := msg.py }
  (st2, publishedMsgs (publishOdomModel m st2 st2.current_position_x st2.current_position_y))

/-! Concrete fixtures used by individual claim theorems. Each `Road` value
records the argument of `get_lanesection` in the returned section's `s0`
field (`fun q => some ⟨q, q + 1, []⟩`), making the looked-up arc-length
observable. -/

def laneNegOne : Lane := ⟨-1, "driving", some "81"⟩

def roadScenB : Road := ⟨"81", 40, fun _ _ => 35, fun q => some ⟨q, q + 1, []⟩⟩

def mapTrivial : OdrMap := ⟨fun _ _ => none, fun _ => none, fun _ _ _ _ _ => []⟩

def secNoShoulder : LaneSection := ⟨0, 40, [⟨-1, "driving", some "81"⟩, ⟨1, "driving", some "81"⟩]⟩

def lanePathEnd : Lane := ⟨-1, "driving", some "953"⟩

def road953 : Road := ⟨"953", 100, fun _ _ => 5, fun q => some ⟨q, q + 1, []⟩⟩

def road81 : Road := ⟨"81", 40, fun _ _ => 0, fun _ => none⟩

def mapPathEnd : OdrMap :=
  ⟨fun _ _ => some lanePathEnd,
   fun rid => if rid = "953" then some road953 else if rid = "81" then some road81 else none,
   fun _ _ _ _ _ => []⟩

def roadRec : Road := ⟨"953", 100, fun _ _ => 0, fun q => some ⟨q, q + 1, []⟩⟩

def mapRec : OdrMap :=
  ⟨fun _ _ => none, fun rid => if rid = "953" then some roadRec else none, fun _ _ _ _ _ => []⟩

def laneC5 : Lane := ⟨-1, "driving", some "81"⟩

def roadC5cur : Road := ⟨"81", 40, fun _ _ => 5, fun _ => none⟩

def pathC5 : List (String × String) := [("81", "1"), ("953", "-4")]

def affineId : Affine3 := ⟨⟨⟨1, 0, 0⟩, ⟨0, 1, 0⟩, ⟨0, 0, 1⟩⟩, ⟨0, 0, 0⟩⟩

def affineTwo : Affine3 := ⟨⟨⟨2, 0, 0⟩, ⟨0, 2, 0⟩, ⟨0, 0, 2⟩⟩, ⟨0, 0, 0⟩⟩

def odomRotZ : OdomMsg := ⟨1, 0, 0, 0, 0, 0, 1⟩

def odomIdRot : OdomMsg := ⟨0, 0, 1, 1, 0, 0, 0⟩

/-! The Displacement Estimator of spec section 4.5. It is not implemented in
the repository sources — CurbLocalizerNode.cpp only sketches it in the closing
design comment (lines 147-172), which matches the spec's formulas — so every
definition below is modelled from the spec and works over real coordinates
(displacement norms are Euclidean, hence irrational in general). -/

/-- Real 3-vector for the estimator (spec Point3 in the map frame). -/
abbrev R3 : Type := ℝ × ℝ × ℝ

/-- Modelled from the spec: Euclidean dot product on 3-vectors, the basis for
the norms in section 4.5. -/
noncomputable def rdot (a b : R3) : ℝ := a.1 * b.1 + a.2.1 * b.2.1 + a.2.2 * b.2.2

/-- Modelled from the spec: Euclidean norm of a displacement vector. -/
noncomputable def rnorm (a : R3) : ℝ := Real.sqrt (rdot a a)

/-- Modelled from the spec: clamping of the segment parameter
("per-segment projection clamped to the segment"). -/
noncomputable def clamp01 (t : ℝ) : ℝ := if t < 0 then 0 else if 1 < t then 1 else t

/-- Modelled from the spec: nearest point to `p` on the segment from `a` to
`b` (projection clamped to the segment; a degenerate zero-length segment is
its single point). -/
noncomputable def closestOnSegment (a b p : R3) : R3 :=
  if rdot (b - a) (b - a) = 0 then a
  else a + clamp01 (rdot (p - a) (b - a) / rdot (b - a) (b - a)) • (b - a)

/-- Modelled from the spec: nearest point to `p` on the piecewise-linear curve
through `line` ("minimum over all segments"; ties keep the earlier segment).
A polyline with no segment leaves `p` in place (zero displacement). -/
noncomputable def closestOnPolyline (line : List R3) (p : R3) : R3 :=
  match line.zip line.tail with
  | [] => p
  | sg :: rest =>
    rest.foldl
      (fun best s2 =>
        if rnorm (closestOnSegment s2.1 s2.2 p - p) < rnorm (best - p) then
          closestOnSegment s2.1 s2.2 p
        else best)
      (closestOnSegment sg.1 sg.2 p)

/-- Modelled from the spec: the displacement vector of each candidate point,
"from `p` to the closest point on `curb_line`". -/
noncomputable def displacements (cloud line : List R3) : List R3 :=
  cloud.map (fun p => closestOnPolyline line p - p)

/-- Modelled from the spec: the denominator `sum of norms of d_i`. -/
noncomputable def sumNorms (ds : List R3) : ℝ := (ds.map rnorm).sum

/-- Modelled from the spec: confidence is `norm of sum / sum of norms` when
the denominator is positive, and `0` otherwise (empty cloud or all-zero
displacements). -/
noncomputable def confidence (ds : List R3) : ℝ :=
  if 0 < sumNorms ds then rnorm ds.sum / sumNorms ds else 0

/-- Reinterpret a coordinate triple in `EuclideanSpace`, to transport the
triangle inequality for the Euclidean norm to `rnorm`. -/
noncomputable def toE (a : R3) : EuclideanSpace ℝ (Fin 3) :=
  (WithLp.equiv 2 (Fin 3 → ℝ)).symm ![a.1, a.2.1, a.2.2]

/-- Candidate cloud for the C8 counterexample. -/
noncomputable def cloudCE : List R3 := [((1 : ℝ), (1 : ℝ), (0 : ℝ)), ((2 : ℝ), (3 : ℝ), (0 : ℝ))]

/-- Curb line for the C8 counterexample: one segment along the x-axis. -/
noncomputable def lineCE : List R3 := [((0 : ℝ), (0 : ℝ), (0 : ℝ)), ((10 : ℝ), (0 : ℝ), (0 : ℝ))]


theorem rnorm_eq_norm (a : R3) : rnorm a = ‖toE a‖ := by
  rw [EuclideanSpace.norm_eq]
  simp only [toE, WithLp.equiv_symm_pi_apply, Fin.sum_univ_three, Matrix.cons_val_zero,
    Matrix.cons_val_one, Matrix.head_cons, Matrix.cons_val_two, Matrix.tail_cons,
    Real.norm_eq_abs, sq_abs]
  unfold rnorm rdot
  congr 1
  ring

theorem toE_add (a b : R3) : toE (a + b) = toE a + toE b := by
  funext i
  fin_cases i <;>
    simp [toE, WithLp.equiv_symm_pi_apply, PiLp.add_apply, Prod.fst_add, Prod.snd_add]

theorem rnorm_nonneg (a : R3) : 0 ≤ rnorm a := Real.sqrt_nonneg _

theorem rnorm_add_le (a b : R3) : rnorm (a + b) ≤ rnorm a + rnorm b := by
  rw [rnorm_eq_norm, rnorm_eq_norm, rnorm_eq_norm, toE_add]
  exact norm_add_le _ _

theorem rnorm_zero_vec : rnorm (0 : R3) = 0 := by
  simp [rnorm, rdot]

theorem rnorm_sum_le (l : List R3) : rnorm l.sum ≤ sumNorms l := by
  induction l with
  | nil => simp [sumNorms, rnorm_zero_vec]
  | cons a t ih =>
    have h1 : rnorm (a + t.sum) ≤ rnorm a + rnorm t.sum := rnorm_add_le a t.sum
    have h2 : sumNorms (a :: t) = rnorm a + sumNorms t := by simp [sumNorms]
    calc rnorm (a :: t).sum = rnorm (a + t.sum) := by rw [List.sum_cons]
    _ ≤ rnorm a + rnorm t.sum := h1
    _ ≤ rnorm a + sumNorms t := by linarith
    _ = sumNorms (a :: t) := h2.symm

theorem sumNorms_nonneg (l : List R3) : 0 ≤ sumNorms l := by
  induction l with
  | nil => simp [sumNorms]
  | cons a t ih =>
    have : sumNorms (a :: t) = rnorm a + sumNorms t := by simp [sumNorms]
    have ha := rnorm_nonneg a
    linarith

theorem list_sum_const (l : List R3) (v : R3) (h : ∀ d ∈ l, d = v) :
    l.sum = (l.length : ℝ) • v := by
  induction l with
  | nil => simp
  | cons a t ih =>
    have ha : a = v := h a (by simp)
    have ht : ∀ d ∈ t, d = v := fun d hd => h d (by simp [hd])
    rw [List.sum_cons, ih ht, ha, List.length_cons]
    push_cast
    rw [add_smul, one_smul]
    abel

theorem sumNorms_const (l : List R3) (v : R3) (h : ∀ d ∈ l, d = v) :
    sumNorms l = (l.length : ℝ) * rnorm v := by
  induction l with
  | nil => simp [sumNorms]
  | cons a t ih =>
    have ha : a = v := h a (by simp)
    have ht : ∀ d ∈ t, d = v := fun d hd => h d (by simp [hd])
    have hc : sumNorms (a :: t) = rnorm a + sumNorms t := by simp [sumNorms]
    rw [hc, ih ht, ha, List.length_cons]
    push_cast
    ring

theorem rnorm_smul (c : ℝ) (v : R3) : rnorm (c • v) = |c| * rnorm v := by
  unfold rnorm rdot
  simp only [Prod.smul_fst, Prod.smul_snd, smul_eq_mul]
  have he : c * v.1 * (c * v.1) + c * v.2.1 * (c * v.2.1) + c * v.2.2 * (c * v.2.2)
      = c ^ 2 * (v.1 * v.1 + v.2.1 * v.2.1 + v.2.2 * v.2.2) := by ring
  rw [he, Real.sqrt_mul (sq_nonneg c), Real.sqrt_sq_eq_abs]

theorem rdot_self_pos (v : R3) (h : v ≠ 0) : 0 < rdot v v := by
  rcases v with ⟨x, y, z⟩
  by_contra hle
  push_neg at hle
  simp only [rdot] at hle
  have hx : x = 0 := by nlinarith [mul_self_nonneg x, mul_self_nonneg y, mul_self_nonneg z]
  have hy : y = 0 := by nlinarith [mul_self_nonneg x, mul_self_nonneg y, mul_self_nonneg z]
  have hz : z = 0 := by nlinarith [mul_self_nonneg x, mul_self_nonneg y, mul_self_nonneg z]
  exact h (by simp [hx, hy, hz, Prod.ext_iff])

theorem rnorm_pos_of_ne (v : R3) (h : v ≠ 0) : 0 < rnorm v :=
  Real.sqrt_pos.mpr (rdot_self_pos v h)

theorem confidence_nonneg (ds : List R3) : 0 ≤ confidence ds := by
  unfold confidence
  split_ifs with h
  · exact div_nonneg (rnorm_nonneg _) (le_of_lt h)
  · exact le_refl 0

theorem confidence_le_one (ds : List R3) : confidence ds ≤ 1 := by
  unfold confidence
  split_ifs with h
  · rw [div_le_one h]
    exact rnorm_sum_le ds
  · norm_num

theorem confidence_eq_ratio (ds : List R3) (h : 0 < sumNorms ds) :
    confidence ds = rnorm ds.sum / sumNorms ds := by
  unfold confidence
  rw [if_pos h]

theorem confidence_of_all_zero (ds : List R3) (h : ∀ d ∈ ds, d = (0 : R3)) :
    confidence ds = 0 := by
  have hs : sumNorms ds = (ds.length : ℝ) * rnorm 0 := sumNorms_const ds 0 h
  rw [rnorm_zero_vec, mul_zero] at hs
  unfold confidence
  rw [if_neg (by rw [hs]; exact lt_irrefl 0)]

theorem confidence_const_one (ds : List R3) (v : R3) (hne : ds ≠ []) (hv : v ≠ 0)
    (h : ∀ d ∈ ds, d = v) : confidence ds = 1 := by
  have hn : 0 < ds.length := List.length_pos.mpr hne
  have hnr : (0 : ℝ) < (ds.length : ℝ) := by exact_mod_cast hn
  have hvn : 0 < rnorm v := rnorm_pos_of_ne v hv
  have hs : sumNorms ds = (ds.length : ℝ) * rnorm v := sumNorms_const ds v h
  have hpos : 0 < sumNorms ds := by rw [hs]; exact mul_pos hnr hvn
  have hsum : ds.sum = (ds.length : ℝ) • v := list_sum_const ds v h
  unfold confidence
  rw [if_pos hpos, hsum, rnorm_smul, abs_of_pos hnr, hs,
    div_self (ne_of_gt (mul_pos hnr hvn))]

/-- C1: the claim says the next-road branch is taken exactly when
(id <= 0 and s + 20 > length) or (id > 0 and s - 20 < 0). The code instead
compares the shared_ptr `current_lane` against 0 (a null test). For a located
(hence non-null) lane with id -2, s = 50 and road length 60, the claim's
condition holds (-2 <= 0 and 70 > 60) yet the code's branch condition is
false, so the code takes the else branch. -/
theorem C1_branch_condition_pointer_bug :
    nextRoadCond (some ⟨-2, "driving", some "60"⟩) 50 60 = false ∧
    ((-2 : Int) ≤ 0 ∧ (50 : ℚ) + 20 > 60) := by
  refine ⟨?_, by decide, by norm_num⟩
  norm_num [nextRoadCond]

/-- C2: whenever the locate / resolve / extract core of a pose-update cycle
fails (modelled: `cycleCore` returns an error, covering no-lane-found, a
dangling road reference, path exhaustion, missing section and missing curb
lanes), the cycle publishes nothing at all on the output topic — in
particular no default or zero pose. -/
theorem C2_failed_cycle_publishes_nothing (m : OdrMap) (msg : OdomMsg) (st : NodeState)
    (c : Crash) (h : cycleCore m msg.px msg.py = .error c) :
    (odom_in_callback m msg st).2 = [] := by
  simp [odom_in_callback, publishOdomModel, publishedMsgs, h]

/-- C2 witness: with a map that finds no lane near the query point, the cycle
fails and the callback emits no message. -/
theorem C2_failed_cycle_publishes_nothing_witness :
    (odom_in_callback mapTrivial ⟨0, 0, 0, 1, 0, 0, 0⟩ ⟨[], [], none, 0, 0, none⟩).2 = [] :=
  C2_failed_cycle_publishes_nothing mapTrivial ⟨0, 0, 0, 1, 0, 0, 0⟩ ⟨[], [], none, 0, 0, none⟩
    .nullDeref rfl

/-- C3: for a resolved lane section containing no shoulder lane on either
side, the claim says extraction skips the absent side and the cycle
continues. The code instead dereferences the null `right_curb` pointer at the
`get_centerline_as_xy(*right_curb, ...)` call and the cycle dies. -/
theorem C3_missing_curb_lane_crash :
    findCurbs secNoShoulder.lanes = (none, none) ∧
    extractStage mapTrivial (some secNoShoulder) = .error .nullDeref :=
  ⟨rfl, rfl⟩

/-- C4: current road "953" is the last entry of the hardcoded path and the
branch is taken (s = 5, so s - 20 < 0 with a non-null lane pointer). The claim
says the resolver fails with PathExhaustedError and the cycle aborts cleanly.
The code has no such error: the loop assigns nothing, the resolver hands back
the pair of null pointers, and the cycle then dies dereferencing the null
`target_lanesection` at `->get_lanes()`. -/
theorem C4_path_exhausted_is_null_crash :
    resolveStage mapPathEnd path_roads (some lanePathEnd) road953 5 = .ok (none, none) ∧
    cycleCore mapPathEnd 0 0 = .error .nullDeref := by
  have h81 : ¬("81" : String) = "953" := by decide
  constructor
  · norm_num [resolveStage, nextRoadCond, road953, resolveLoopGo, path_roads, mapPathEnd, h81]
  · norm_num [cycleCore, locateStage, mapPathEnd, lanePathEnd, road953, road81, resolveStage,
      nextRoadCond, resolveLoopGo, path_roads, extractStage, h81]

/-- C5 counterexample: the claim says any *negative* recorded lane id on the
next path entry makes the lookup use the overflow arc-length `next_s`. Here
the look-ahead does cross the boundary (located lane pointer non-null, s = 5,
so s - 20 < 0 under the code's condition) with overflow |40 - 25| = 15, and
the next path entry is ("953", "-4") — a negative id that is not one of the
literals "-1"/"-2"/"-3" tested on line 89. The code looks the section up at
length - overflow = 100 - 15 = 85, not at 15 (the recording `lanesectionAt`
of `roadRec` exposes the looked-up argument as the returned section's `s0`). -/
theorem C5_negative_id_counterexample :
    resolveStage mapRec pathC5 (some laneC5) roadC5cur 5 =
      .ok (some roadRec, some ⟨85, 86, []⟩) ∧
    roadRec.lanesectionAt 15 = some ⟨15, 16, []⟩ ∧
    some (⟨85, 86, []⟩ : LaneSection) ≠ some (⟨15, 16, []⟩ : LaneSection) := by
  refine ⟨?_, by norm_num [roadRec], by simp [LaneSection.mk.injEq]⟩
  norm_num [resolveStage, nextRoadCond, roadC5cur, pathC5, resolveLoopGo, assignTarget,
    sectionChoice, mapRec, roadRec]
  decide

/-- C5 amended: whenever the look-ahead crosses into the next road of the
path, the next road's lane section is looked up at the overflow arc-length
when the next path entry's recorded lane id is one of the literal strings
"-1", "-2", "-3", and at the next road's length minus the overflow for every
other lane id. Stated for a two-entry path whose first entry matches the
current road, exercising the resolver loop. -/
theorem C5_next_road_lookup_amended (m : OdrMap) (rid : String) (next_s : ℚ)
    (a b : String × String) (r : Road) (ha : a.1 = rid) (hb : m.roads b.1 = some r) :
    resolveLoopGo m rid next_s [a, b] (none, none) =
      .ok (some r,
        if b.2 = "-1" ∨ b.2 = "-2" ∨ b.2 = "-3" then r.lanesectionAt next_s
        else r.lanesectionAt (r.length - next_s)) := by
  simp [resolveLoopGo, ha, assignTarget, hb, sectionChoice]

/-- C5 amended witness: concrete instance with next entry lane id "-2". -/
theorem C5_next_road_lookup_amended_witness :
    resolveLoopGo mapRec "81" 7 [("81", "1"), ("953", "-2")] (none, none) =
      .ok (some roadRec, roadRec.lanesectionAt 7) := by
  have h := C5_next_road_lookup_amended mapRec "81" 7 ("81", "1") ("953", "-2") roadRec rfl rfl
  rw [h, if_pos (Or.inr (Or.inl rfl))]

/-- C6: Scenario B of the claim — right-side lane of id -1 (located, hence a
non-null pointer), s = 35, road length 40, look-ahead 20. The claim says
next-road resolution is triggered with overflow |40 - 55| = 15. The code's
branch condition (a shared_ptr null test instead of the id) is false here, so
the resolver returns the current road and its section at s = 35; 15 is indeed
the overflow value line 83 *would* have computed. -/
theorem C6_scenario_b_not_triggered :
    resolveStage mapTrivial path_roads (some laneNegOne) roadScenB 35 =
      .ok (some roadScenB, roadScenB.lanesectionAt 35) ∧
    nextRoadCond (some laneNegOne) 35 roadScenB.length = false ∧
    |roadScenB.length - ((35 : ℚ) + 20)| = 15 := by
  refine ⟨?_, ?_, by norm_num [roadScenB]⟩
  · norm_num [resolveStage, nextRoadCond, roadScenB]
  · norm_num [nextRoadCond, roadScenB]

/-- C7: the claim says the cloud-to-map transform applies the pose's rotation
first and then its translation (p ↦ R p + t). The code right-multiplies
(`rotate` then `translate` on an Eigen transform), which yields
p ↦ R p + R t even when the uninitialized initial transform happens to be the
identity. At a 180-degree yaw pose (quaternion w=0, x=0, y=0, z=1) with
translation (1, 0, 0), the origin maps to (-1, 0, 0) instead of the claimed
(1, 0, 0). Point order and count are preserved; the rotation/translation
composition order is not. -/
theorem C7_translation_is_rotated :
    transform_points_to_odom affineId [⟨0, 0, 0⟩] odomRotZ = [⟨-1, 0, 0⟩] ∧
    to_map_frame_spec ⟨0, 0, 0, 1⟩ ⟨1, 0, 0⟩ [⟨0, 0, 0⟩] = [⟨1, 0, 0⟩] ∧
    (⟨-1, 0, 0⟩ : Vec3) ≠ ⟨1, 0, 0⟩ := by
  refine ⟨?_, ?_, by norm_num [Vec3.mk.injEq]⟩ <;>
    norm_num [transform_points_to_odom, to_map_frame_spec, quatToRot, affineId, odomRotZ,
      Affine3.rotate, Affine3.translate, Affine3.apply, Mat3.mul, Mat3.mulVec,
      Mat3.col1, Mat3.col2, Mat3.col3, Vec3.add, Vec3.dot]

/-- C9: each curb point-cloud callback replaces its own side's stored cloud
wholesale with the converted message (the new value depends on the message
alone) and leaves the other side's cloud, the stored pose, the cached
position and the output pointer untouched. -/
theorem C9_cloud_callbacks_replace_only_own_side (msg : CloudMsg) (st : NodeState) :
    (left_curb_points_callback msg st).left_curb_points = convert_to_pcl msg ∧
    (left_curb_points_callback msg st).right_curb_points = st.right_curb_points ∧
    (left_curb_points_callback msg st).odom_in = st.odom_in ∧
    (left_curb_points_callback msg st).current_position_x = st.current_position_x ∧
    (left_curb_points_callback msg st).current_position_y = st.current_position_y ∧
    (left_curb_points_callback msg st).odom_out = st.odom_out ∧
    (right_curb_points_callback msg st).right_curb_points = convert_to_pcl msg ∧
    (right_curb_points_callback msg st).left_curb_points = st.left_curb_points ∧
    (right_curb_points_callback msg st).odom_in = st.odom_in ∧
    (right_curb_points_callback msg st).current_position_x = st.current_position_x ∧
    (right_curb_points_callback msg st).current_position_y = st.current_position_y ∧
    (right_curb_points_callback msg st).odom_out = st.odom_out :=
  ⟨rfl, rfl, rfl, rfl, rfl, rfl, rfl, rfl, rfl, rfl, rfl, rfl⟩

/-- C10: the claim says the transform is a function of the cloud and the pose
alone. The code builds the transform on a default-constructed (uninitialized)
`Eigen::Affine3d`, so the output also depends on the indeterminate initial
contents: with identical cloud and pose, initial contents `identity` and
`2 * identity` give different outputs. -/
theorem C10_output_depends_on_uninitialized_transform :
    transform_points_to_odom affineTwo [⟨0, 0, 0⟩] odomIdRot ≠
      transform_points_to_odom affineId [⟨0, 0, 0⟩] odomIdRot := by
  norm_num [transform_points_to_odom, quatToRot, affineId, affineTwo, odomIdRot,
    Affine3.rotate, Affine3.translate, Affine3.apply, Mat3.mul, Mat3.mulVec,
    Mat3.col1, Mat3.col2, Mat3.col3, Vec3.add, Vec3.dot, Vec3.mk.injEq]

/-- C8 amended: for every candidate cloud and curb line, the estimator's
confidence lies in [0, 1]; it equals the ratio of the norm of the summed
displacements to the sum of their norms when the latter is positive; it
equals 0 when the candidate cloud is empty or all displacement vectors are
exactly zero; and it equals 1 whenever all displacement vectors are identical
and non-zero (the original claim's "exactly when" fails: equality also occurs
for distinct but positively aligned displacements, see the counterexample). -/
theorem C8_confidence_amended (cloud line : List R3) :
    (0 ≤ confidence (displacements cloud line) ∧ confidence (displacements cloud line) ≤ 1) ∧
    (0 < sumNorms (displacements cloud line) →
      confidence (displacements cloud line) =
        rnorm (displacements cloud line).sum / sumNorms (displacements cloud line)) ∧
    (cloud = [] → confidence (displacements cloud line) = 0) ∧
    ((∀ d ∈ displacements cloud line, d = (0 : R3)) →
      confidence (displacements cloud line) = 0) ∧
    (∀ v : R3, v ≠ 0 → displacements cloud line ≠ [] →
      (∀ d ∈ displacements cloud line, d = v) →
      confidence (displacements cloud line) = 1) := by
  refine ⟨⟨confidence_nonneg _, confidence_le_one _⟩,
    fun h => confidence_eq_ratio _ h, ?_, confidence_of_all_zero _,
    fun v hv hne h => confidence_const_one _ v hne hv h⟩
  intro hc
  exact confidence_of_all_zero _ (by simp [hc, displacements])

/-- C8 witness: the empty candidate cloud yields confidence 0. -/
theorem C8_confidence_amended_witness :
    confidence (displacements ([] : List R3)
      [((0 : ℝ), (0 : ℝ), (0 : ℝ)), ((10 : ℝ), (0 : ℝ), (0 : ℝ))]) = 0 :=
  (C8_confidence_amended [] [((0 : ℝ), (0 : ℝ), (0 : ℝ)), ((10 : ℝ), (0 : ℝ), (0 : ℝ))]).2.2.1 rfl

theorem closestCE1 : closestOnPolyline lineCE ((1 : ℝ), (1 : ℝ), (0 : ℝ)) =
    ((1 : ℝ), (0 : ℝ), (0 : ℝ)) := by
  unfold closestOnPolyline lineCE
  norm_num [List.zip, List.zipWith, closestOnSegment, clamp01, rdot,
    Prod.mk_sub_mk, Prod.mk_add_mk, Prod.smul_mk, smul_eq_mul, Prod.mk.injEq]

theorem closestCE2 : closestOnPolyline lineCE ((2 : ℝ), (3 : ℝ), (0 : ℝ)) =
    ((2 : ℝ), (0 : ℝ), (0 : ℝ)) := by
  unfold closestOnPolyline lineCE
  norm_num [List.zip, List.zipWith, closestOnSegment, clamp01, rdot,
    Prod.mk_sub_mk, Prod.mk_add_mk, Prod.smul_mk, smul_eq_mul, Prod.mk.injEq]

theorem displacementsCE : displacements cloudCE lineCE =
    [((0 : ℝ), (-1 : ℝ), (0 : ℝ)), ((0 : ℝ), (-3 : ℝ), (0 : ℝ))] := by
  unfold displacements cloudCE
  rw [List.map_cons, List.map_cons, List.map_nil, closestCE1, closestCE2]
  norm_num [Prod.mk_sub_mk, Prod.mk.injEq]

/-- C8 counterexample: two displacement vectors pointing the same way but of
different lengths, (0, -1, 0) and (0, -3, 0), produced by a concrete cloud
and curb line. The confidence is 1 although the displacement vectors are not
identical, refuting the claim's "equals 1 exactly when all displacement
vectors are identical and non-zero". -/
theorem C8_confidence_counterexample :
    confidence (displacements cloudCE lineCE) = 1 ∧
    displacements cloudCE lineCE =
      [((0 : ℝ), (-1 : ℝ), (0 : ℝ)), ((0 : ℝ), (-3 : ℝ), (0 : ℝ))] ∧
    ((0 : ℝ), (-1 : ℝ), (0 : ℝ)) ≠ ((0 : ℝ), (-3 : ℝ), (0 : ℝ)) := by
  refine ⟨?_, displacementsCE, by norm_num [Prod.ext_iff]⟩
  rw [displacementsCE]
  have h1 : rnorm ((0 : ℝ), (-1 : ℝ), (0 : ℝ)) = 1 := by
    unfold rnorm rdot
    norm_num
  have h3 : rnorm ((0 : ℝ), (-3 : ℝ), (0 : ℝ)) = 3 := by
    unfold rnorm rdot
    rw [show ((0 : ℝ) * 0 + (-3) * (-3) + 0 * 0) = 3 ^ 2 by ring,
      Real.sqrt_sq (by norm_num : (0 : ℝ) ≤ 3)]
  have hS : sumNorms [((0 : ℝ), (-1 : ℝ), (0 : ℝ)), ((0 : ℝ), (-3 : ℝ), (0 : ℝ))] = 4 := by
    simp [sumNorms, h1, h3]
    norm_num
  have hsum : ([((0 : ℝ), (-1 : ℝ), (0 : ℝ)), ((0 : ℝ), (-3 : ℝ), (0 : ℝ))] : List R3).sum
      = ((0 : ℝ), (-4 : ℝ), (0 : ℝ)) := by
    simp [Prod.ext_iff, Prod.fst_add, Prod.snd_add]
    norm_num
  have h4 : rnorm ((0 : ℝ), (-4 : ℝ), (0 : ℝ)) = 4 := by
    unfold rnorm rdot
    rw [show ((0 : ℝ) * 0 + (-4) * (-4) + 0 * 0) = 4 ^ 2 by ring,
      Real.sqrt_sq (by norm_num : (0 : ℝ) ≤ 4)]
  unfold confidence
  rw [hS, hsum, h4]
  norm_num
